import Mathlib

/-!
Verification of the GPU path-tracing engine against its specification.

The definitions below are a shallow embedding of the Rust source:
machine integers become Nat (with explicit modular reduction where the
source truncates), f32 scalars that only flow through arithmetic the
claims inspect become Rat, byte buffers become List Nat, and fallible
code returns Except.  Each definition names the source item it embeds.
-/

namespace Nea

/-! ### Image loading (src/loader/images.rs) -/

/-- Decoded glTF pixel formats (the full `gltf::image::Format` enum). -/
inductive GltfFormat
  | R8 | R8G8 | R8G8B8 | R8G8B8A8
  | R16 | R16G16 | R16G16B16 | R16G16B16A16
  | R32G32B32FLOAT | R32G32B32A32FLOAT
deriving DecidableEq, Repr

/-- GPU formats produced by the remap table in `parse_image`. -/
inductive VkFormat
  | R8_UNORM | R8G8_UNORM | R8G8B8A8_UNORM
  | R16_UNORM | R16G16_UNORM | R16G16B16A16_UNORM
  | R32G32B32A32_SFLOAT
deriving DecidableEq, Repr

/-- `ImageLoadError` from src/loader/images.rs. -/
inductive ImageLoadError
  | UnsupportedFormat (f : GltfFormat)
  | DataConversionFailed
deriving DecidableEq, Repr

/-- Decoded image handed to `parse_image` (`gltf::image::Data`): raw bytes
plus dimensions and the decoded format. -/
structure ImageData where
  format : GltfFormat
  pixels : List Nat
  width : Nat
  height : Nat
deriving DecidableEq

/-- `GpuImage` from src/loader/images.rs. -/
structure GpuImage where
  bytes : List Nat
  dimsX : Nat
  dimsY : Nat
  dimsZ : Nat
  format : VkFormat
deriving DecidableEq

/-- `pixels.chunks_exact(3).map(|p| [p[0], p[1], p[2], pad]).flatten()`:
every exact chunk of three channels is emitted with a fourth padding
channel appended; a trailing partial chunk is dropped. -/
def padChunks3 (pad : Nat) : List Nat → List Nat
  | a :: b :: c :: rest => a :: b :: c :: pad :: padChunks3 pad rest
  | _ => []

/-- `bytemuck::try_cast_slice::<u8, u16>` viewed at the value level:
little-endian byte pairs become 16-bit values.  A trailing odd byte is
dropped (the length condition is checked separately in `parseBytes`). -/
def leBytesToU16 : List Nat → List Nat
  | a :: b :: rest => (a + 256 * b) :: leBytesToU16 rest
  | _ => []

/-- `bytemuck::try_cast_vec::<u16, u8>`: 16-bit values flattened back to
little-endian bytes. -/
def u16ToLeBytes : List Nat → List Nat
  | h :: rest => h % 256 :: h / 256 :: u16ToLeBytes rest
  | [] => []

/-- `bytemuck::try_cast_slice::<u8, f32>` at the bit level: little-endian
4-byte groups become 32-bit words. -/
def leBytesToU32 : List Nat → List Nat
  | a :: b :: c :: d :: rest => (a + 256 * (b + 256 * (c + 256 * d))) :: leBytesToU32 rest
  | _ => []

/-- 32-bit words flattened back to little-endian bytes. -/
def u32ToLeBytes : List Nat → List Nat
  | h :: rest => h % 256 :: h / 256 % 256 :: h / 65536 % 256 :: h / 16777216 % 256 :: u32ToLeBytes rest
  | [] => []

/-- Bit pattern of `f32::MAX`, the padding value for R32G32B32FLOAT. -/
def f32MaxBits : Nat := 0x7F7FFFFF

/-- First match in `parse_image` (src/loader/images.rs lines 21-75): the
byte-payload transformation per decoded format.  `try_cast_slice` is
modelled by its length precondition (a byte count that is not a multiple
of the target element size is a `DataConversionFailed` error).  Note the
source lists `R16` and `R16G16` in neither an explicit arm nor the
pass-through arm, so they fall to the wildcard error arm. -/
def parseBytes (format : GltfFormat) (pixels : List Nat) : Except ImageLoadError (List Nat) :=
  match format with
  | .R8G8B8 => .ok (padChunks3 255 pixels)
  | .R16G16B16 =>
      if pixels.length % 2 = 0 then
        .ok (u16ToLeBytes (padChunks3 65535 (leBytesToU16 pixels)))
      else .error .DataConversionFailed
  | .R32G32B32FLOAT =>
      if pixels.length % 4 = 0 then
        .ok (u32ToLeBytes (padChunks3 f32MaxBits (leBytesToU32 pixels)))
      else .error .DataConversionFailed
  | .R8 | .R8G8 | .R8G8B8A8 | .R16G16B16A16 | .R32G32B32A32FLOAT => .ok pixels
  | f => .error (.UnsupportedFormat f)

/-- Second match in `parse_image` (src/loader/images.rs lines 78-97): the
glTF-format to GPU-format translation table. -/
def vulkanFormat : GltfFormat → VkFormat
  | .R8 => .R8_UNORM
  | .R8G8 => .R8G8_UNORM
  | .R8G8B8 => .R8G8B8A8_UNORM
  | .R8G8B8A8 => .R8G8B8A8_UNORM
  | .R16 => .R16_UNORM
  | .R16G16 => .R16G16_UNORM
  | .R16G16B16 => .R16G16B16A16_UNORM
  | .R16G16B16A16 => .R16G16B16A16_UNORM
  | .R32G32B32FLOAT => .R32G32B32A32_SFLOAT
  | .R32G32B32A32FLOAT => .R32G32B32A32_SFLOAT

/-- `parse_image` from src/loader/images.rs: transform the payload, then
attach the translated format and the (width, height, 1) extent. -/
def parse_image (data : ImageData) : Except ImageLoadError GpuImage :=
  match parseBytes data.format data.pixels with
  | .error e => .error e
  | .ok bytes =>
      .ok { bytes := bytes, dimsX := data.width, dimsY := data.height, dimsZ := 1,
            format := vulkanFormat data.format }

/-! ### repr(C) layout calculus, for `UniformData` and `Material` -/

/-- One field of a `#[repr(C)]` struct: its name, byte size and alignment. -/
structure FieldDesc where
  name : String
  size : Nat
  align : Nat
deriving DecidableEq

/-- Round `off` up to the next multiple of `align`. -/
def alignUp (off align : Nat) : Nat := (off + align - 1) / align * align

/-- Field offsets of a repr(C) struct: each field is placed at the current
offset rounded up to the field alignment. -/
def reprCOffsetsAux : Nat → List FieldDesc → List (String × Nat)
  | _, [] => []
  | off, f :: rest =>
      (f.name, alignUp off f.align) :: reprCOffsetsAux (alignUp off f.align + f.size) rest

/-- Offsets of every field of a repr(C) struct, in declaration order. -/
def reprCOffsets (fields : List FieldDesc) : List (String × Nat) :=
  reprCOffsetsAux 0 fields

/-- End offset after laying out all fields. -/
def reprCEnd : Nat → List FieldDesc → Nat
  | off, [] => off
  | off, f :: rest => reprCEnd (alignUp off f.align + f.size) rest

/-- Alignment of a repr(C) struct: maximum field alignment. -/
def reprCAlign (fields : List FieldDesc) : Nat :=
  fields.foldr (fun f a => max f.align a) 1

/-- Size of a repr(C) struct: the end offset rounded up to the struct
alignment. -/
def reprCSize (fields : List FieldDesc) : Nat :=
  alignUp (reprCEnd 0 fields) (reprCAlign fields)

/-- A `u32` field: 4 bytes, 4-byte aligned. -/
def u32Field (n : String) : FieldDesc := ⟨n, 4, 4⟩

/-- An `f32` field: 4 bytes, 4-byte aligned. -/
def f32Field (n : String) : FieldDesc := ⟨n, 4, 4⟩

/-- A `glam::Vec3A` field: 16 bytes, 16-byte aligned. -/
def vec3aField (n : String) : FieldDesc := ⟨n, 16, 16⟩

/-- A `glam::Mat4` field: 64 bytes, 16-byte aligned. -/
def mat4Field (n : String) : FieldDesc := ⟨n, 64, 16⟩

/-- The fields of `UniformData` (src/render/raytracer.rs lines 51-71), in
declaration order. -/
def uniformDataFields : List FieldDesc :=
  [u32Field "seed", u32Field "samples", u32Field "bounces", u32Field "mode",
   f32Field "focal_length", f32Field "aperture", f32Field "exposure", f32Field "time",
   vec3aField "pos", mat4Field "inv_view", mat4Field "inv_proj"]

/-- The fields of `Material` (src/render/raytracer.rs lines 39-45). -/
def materialFields : List FieldDesc :=
  [vec3aField "base_color", vec3aField "emissive",
   f32Field "roughness", f32Field "metallic"]

/-- `std::mem::size_of::<Material>()`. -/
def materialSize : Nat := reprCSize materialFields

/-- The material buffer byte size, `size_of::<Material>() * 4096`
(src/render/raytracer.rs line 169). -/
def materialBufferSize : Nat := materialSize * 4096

/-- Number of material slots the buffer holds. -/
def materialSlots : Nat := materialBufferSize / materialSize

/-! ### World state and the uniform write (src/world.rs, raytracer.rs) -/

/-- Render settings read by `update_uniform_buffer`. -/
structure WorldSettings where
  samples : Nat
  bounces : Nat
  focal_length : Rat
  aperture : Rat
  exposure : Rat
  fov : Rat
  near : Rat
  far : Rat
deriving DecidableEq

/-- Camera position (the rotation only feeds the matrix math, which the
layout claim does not inspect). -/
structure CameraPose where
  posX : Rat
  posY : Rat
  posZ : Rat
deriving DecidableEq

/-- The CPU-side world state read each frame. -/
structure World where
  camera : CameraPose
  settings : WorldSettings
deriving DecidableEq

/-- The scalar header of the `UniformData` record written by
`update_uniform_buffer`; the two matrices occupy the trailing 128 bytes
and their numeric contents are not part of the layout claim. -/
structure UniformRecord where
  seed : Nat
  samples : Nat
  bounces : Nat
  mode : Nat
  focal_length : Rat
  aperture : Rat
  exposure : Rat
  time : Rat
  posX : Rat
  posY : Rat
  posZ : Rat
deriving DecidableEq

/-- `Raytracer::update_uniform_buffer` (src/render/raytracer.rs lines
280-315): the single `ptr.write(UniformData { .. })` store, restricted to
the scalar fields. `mode` is written as 0 and `time` as 0.0. -/
def updateUniformBuffer (world : World) (seed : Nat) : UniformRecord :=
  { seed := seed
    samples := world.settings.samples
    bounces := world.settings.bounces
    mode := 0
    focal_length := world.settings.focal_length
    aperture := world.settings.aperture
    exposure := world.settings.exposure
    time := 0
    posX := world.camera.posX
    posY := world.camera.posY
    posZ := world.camera.posZ }

/-! ### Scene objects and acceleration structures
(src/loader.rs, src/render/raytracer.rs, src/vulkan/rt.rs) -/

/-- `GpuObject`: vertices are the flattened xyz float array, indices the
u32 index array; the transform is the 16-entry column-major node matrix. -/
structure GpuObject where
  vertices : List Rat
  indices : List Nat
  transform : List Rat
  baseColorR : Rat
  baseColorG : Rat
  baseColorB : Rat
  emissiveR : Rat
  emissiveG : Rat
  emissiveB : Rat
  roughness : Rat
  metallic : Rat
deriving DecidableEq

/-- `Material` record values written into the material buffer. -/
structure MaterialRec where
  baseColorR : Rat
  baseColorG : Rat
  baseColorB : Rat
  emissiveR : Rat
  emissiveG : Rat
  emissiveB : Rat
  roughness : Rat
  metallic : Rat
deriving DecidableEq

/-- The `Material { .. }` value built from a `GpuObject` in `load_objects`
(src/render/raytracer.rs lines 501-506). -/
def materialOf (o : GpuObject) : MaterialRec :=
  { baseColorR := o.baseColorR, baseColorG := o.baseColorG, baseColorB := o.baseColorB
    emissiveR := o.emissiveR, emissiveG := o.emissiveG, emissiveB := o.emissiveB
    roughness := o.roughness, metallic := o.metallic }

/-- `GeometryDescription` from src/vulkan/rt.rs. -/
structure GeometryDescription where
  vertices : Nat
  indices : Nat
  max_vertex : Nat
  primitives : Nat
deriving DecidableEq

/-- The `GeometryDescription { .. }` built per object in `load_objects`
(src/render/raytracer.rs lines 510-515) and in `Scene::build_meshes`
(src/render/raytracer/scene.rs lines 240-245): `max_vertex` is
`vertices.len() - 1` over the flattened float array, and `primitives` is
`indices.len().div_ceil(3)`. -/
def mkGeometryDescription (vaddr iaddr : Nat) (o : GpuObject) : GeometryDescription :=
  { vertices := vaddr
    indices := iaddr
    max_vertex := o.vertices.length - 1
    primitives := (o.indices.length + 2) / 3 }

/-- Modelled from the spec: the maximum vertex index of an object whose
vertex array is a flattened list of 12-byte (x,y,z) float triples, i.e.
its vertex count minus one.  Used only to compare the source computation
against the claim. -/
def specMaxVertex (o : GpuObject) : Nat := o.vertices.length / 3 - 1

/-- `GeometryInstance` from src/vulkan/rt.rs. -/
structure GeometryInstance where
  transform : List Rat
  blas : Nat
  index : Nat
deriving DecidableEq

/-- `ash::vk::Packed24_8::new(lo, hi)`: low 24 bits from `lo`, high 8 bits
from `hi`. -/
def packed24_8 (lo hi : Nat) : Nat := lo % 16777216 + hi % 256 * 16777216

/-- One `vk::AccelerationStructureInstanceKHR` record as packed by
`AccelerationStructure::build_top_level` (src/vulkan/rt.rs lines 208-233). -/
structure VkInstanceRec where
  transform : List Rat
  customIndexAndMask : Nat
  sbtOffsetAndFlags : Nat
  blasAddr : Nat
deriving DecidableEq

/-- The custom index stored in an instance record (low 24 bits). -/
def customIndexOf (v : VkInstanceRec) : Nat := v.customIndexAndMask % 16777216

/-- The visibility mask stored in an instance record (high 8 bits). -/
def maskOf (v : VkInstanceRec) : Nat := v.customIndexAndMask / 16777216 % 256

/-- The SBT record offset stored in an instance record (low 24 bits). -/
def sbtOffsetOf (v : VkInstanceRec) : Nat := v.sbtOffsetAndFlags % 16777216

/-- The instance flags stored in an instance record (high 8 bits). -/
def flagsOf (v : VkInstanceRec) : Nat := v.sbtOffsetAndFlags / 16777216 % 256

/-- `transform.transpose().to_cols_array()` on a 16-entry column-major
matrix: entry i of the transposed column-major array is entry
(i mod 4) * 4 + i / 4 of the original. -/
def mat4TransposeCols (m : List Rat) : List Rat :=
  (List.range 16).map fun i => m.getD (i % 4 * 4 + i / 4) 0

/-- `AccelerationStructure::build_top_level` instance packing
(src/vulkan/rt.rs lines 208-233): row-major 3x4 transform (transposed
column array truncated to 12 entries), `Packed24_8::new(index, 0xFF)` and
`Packed24_8::new(0, 0)`. -/
def build_top_level (instances : List GeometryInstance) : List VkInstanceRec :=
  instances.map fun g =>
    { transform := (mat4TransposeCols g.transform).take 12
      customIndexAndMask := packed24_8 g.index 255
      sbtOffsetAndFlags := packed24_8 0 0
      blasAddr := g.blas }

/-- A mesh record held by the raytracer: the two GPU buffers. -/
structure MeshRec where
  vertices : List Rat
  indices : List Nat
deriving DecidableEq

/-- `AccelerationStructure::build_bottom_levels` at the structural level:
one BLAS (device address plus its geometry) is created per description,
in order. -/
def build_bottom_levels (baddr : Nat → Nat) (descs : List GeometryDescription) :
    List (Nat × GeometryDescription) :=
  descs.enum.map fun p => (baddr p.1, p.2)

/-- The GPU-resident scene produced by `Raytracer::load_objects`. -/
structure LoadedScene where
  meshes : List MeshRec
  geometries : List GeometryDescription
  blasses : List (Nat × GeometryDescription)
  materialWrites : List (Nat × MaterialRec)
  tlasInstances : List VkInstanceRec
deriving DecidableEq

/-- `Raytracer::load_objects` (src/render/raytracer.rs lines 414-549):
per object, push a mesh, a geometry description and a material write at
row `index`; build one BLAS per geometry; then build the TLAS from one
instance per object with `index` as the custom index.  Device addresses
are opaque driver values, modelled by the assignment functions. -/
def load_objects (vaddr iaddr baddr : Nat → Nat) (objects : List GpuObject) : LoadedScene :=
  let geometries := objects.enum.map fun p => mkGeometryDescription (vaddr p.1) (iaddr p.1) p.2
  let blasses := build_bottom_levels baddr geometries
  let instances := objects.enum.map fun p =>
    { transform := p.2.transform, blas := baddr p.1, index := p.1 : GeometryInstance }
  { meshes := objects.map fun o => { vertices := o.vertices, indices := o.indices }
    geometries := geometries
    blasses := blasses
    materialWrites := objects.enum.map fun p => (p.1, materialOf p.2)
    tlasInstances := build_top_level instances }

/-! ### Frame pacing (src/render/frame.rs, src/vulkan/display.rs) -/

/-- `Display::IMAGE_COUNT`, returned by `Display::frames_in_flight`. -/
def framesInFlight : Nat := 3

/-- State of the `Frames` ring: the wrapping counter, each slot's
in-flight fence state, and whether each slot has GPU work submitted but
not yet completed. -/
structure FramesState where
  counter : Nat
  signaled : List Bool
  pending : List Bool
deriving DecidableEq

/-- `Frames::new` (src/render/frame.rs lines 94-120): counter 0 and every
slot's in-flight fence created signaled (`Fence::new(ctx, true)`). -/
def framesNew : FramesState :=
  { counter := 0
    signaled := List.replicate framesInFlight true
    pending := List.replicate framesInFlight false }

/-- The observable actions `Frames::next` performs, in order. -/
inductive FrameEvent
  | advanceCounter (slot : Nat)
  | waitFence (slot : Nat)
  | resetFence (slot : Nat)
  | resetPool (slot : Nat)
  | acquireImage (slot : Nat)
deriving DecidableEq

/-- The slot `next` moves to: `(counter + 1) % frames_in_flight()`. -/
def nextSlot (s : FramesState) : Nat := (s.counter + 1) % framesInFlight

/-- The host-wait in `next` returns only once that slot's fence is
signaled; this is the enabling condition of the `next` step. -/
def nextReady (s : FramesState) : Prop :=
  s.signaled.getD (nextSlot s) false = true

instance (s : FramesState) : Decidable (nextReady s) :=
  inferInstanceAs (Decidable (s.signaled.getD (nextSlot s) false = true))

/-- `Frames::next` (src/render/frame.rs lines 123-144): advance the
counter, wait-and-reset that slot's fence, reset that slot's command
pool, acquire the next swapchain image. -/
def framesNext (s : FramesState) : FramesState × List FrameEvent :=
  ({ counter := nextSlot s, signaled := s.signaled.set (nextSlot s) false,
     pending := s.pending },
   [.advanceCounter (nextSlot s), .waitFence (nextSlot s), .resetFence (nextSlot s),
    .resetPool (nextSlot s), .acquireImage (nextSlot s)])

/-- `FrameRef::submit`: the current slot's in-flight fence is handed to
the queue submission, so the slot now has work in flight. -/
def frameSubmit (s : FramesState) : FramesState :=
  { s with pending := s.pending.set s.counter true }

/-- The GPU completing slot i's submission signals that slot's fence. -/
def gpuComplete (s : FramesState) (i : Nat) : FramesState :=
  if s.pending.getD i false then
    { s with pending := s.pending.set i false, signaled := s.signaled.set i true }
  else s

/-- One step of the render loop or of the GPU. -/
inductive FramesStep : FramesState → FramesState → Prop
  | next (s : FramesState) (h : nextReady s) : FramesStep s (framesNext s).1
  | submit (s : FramesState) : FramesStep s (frameSubmit s)
  | complete (s : FramesState) (i : Nat) : FramesStep s (gpuComplete s i)

/-- States reachable from `Frames::new`. -/
inductive FramesReachable : FramesState → Prop
  | init : FramesReachable framesNew
  | step (s t : FramesState) : FramesReachable s → FramesStep s t → FramesReachable t

/-- Number of frames in flight: slots with submitted, uncompleted work. -/
def inFlight (s : FramesState) : Nat := s.pending.count true

/-! ### Scene loader (src/loader.rs) and the per-frame raytracer entry -/

/-- `SceneData` from src/loader.rs. -/
structure SceneData where
  objects : List GpuObject
deriving DecidableEq

/-- Result the loader worker thread produces (`anyhow::Result<SceneData>`):
either a scene or an error message (dialog cancelled, glTF parse error,
unsupported image format). -/
inductive LoadOutcome
  | ok (s : SceneData)
  | err (msg : String)
deriving DecidableEq

/-- `SceneLoader`: the optional worker handle, with whether the thread is
finished and the result joining it would return. -/
structure LoaderState where
  loadThread : Option (Bool × LoadOutcome)
deriving DecidableEq

/-- Log lines the embedded code emits. -/
inductive LogEvent
  | infoLog (msg : String)
  | errorLog (msg : String)
deriving DecidableEq

/-- `SceneLoader::poll` (src/loader.rs lines 62-86): if a worker exists
and is finished, take the handle and join it; on success return the
scene, on failure log the error and return nothing.  Otherwise return
nothing and leave the state alone. -/
def pollLoader : LoaderState → LoaderState × Option SceneData × List LogEvent
  | ⟨some (true, .ok s)⟩ => (⟨none⟩, some s, [])
  | ⟨some (true, .err m)⟩ => (⟨none⟩, none, [.errorLog m])
  | ⟨some (false, r)⟩ => (⟨some (false, r)⟩, none, [])
  | ⟨none⟩ => (⟨none⟩, none, [])

/-- `Raytracer::run` (src/render/raytracer.rs lines 192-202): if the poll
produced a scene, load it (replacing all GPU scene state); then dispatch
the path tracer exactly when a TLAS exists.  Returns the new scene state
and whether the tracer dispatched. -/
def raytracerRun (vaddr iaddr baddr : Nat → Nat) (current : Option LoadedScene)
    (polled : Option SceneData) : Option LoadedScene × Bool :=
  match polled with
  | some scene => (some (load_objects vaddr iaddr baddr scene.objects), true)
  | none => (current, current.isSome)

/-! ### UI painter scissor and attachment (src/render/painter.rs) -/

/-- An egui clip rectangle (f32 corners, modelled as exact rationals). -/
structure ClipRect where
  minX : Rat
  minY : Rat
  maxX : Rat
  maxY : Rat
deriving DecidableEq

/-- `clip_rect.width()`. -/
def rectWidth (r : ClipRect) : Rat := r.maxX - r.minX

/-- `clip_rect.height()`. -/
def rectHeight (r : ClipRect) : Rat := r.maxY - r.minY

/-- The `as i32` cast on an f32 value: truncation toward zero. -/
def ratTrunc (q : Rat) : Int := Int.tdiv q.num q.den

/-- `f32::round`: round half away from zero. -/
def ratRoundHalfAway (q : Rat) : Int :=
  if q < 0 then -(Int.floor (-q + 1/2)) else Int.floor (q + 1/2)

/-- A `vk::Rect2D` scissor: `vk::Offset2D` plus `vk::Extent2D`. -/
structure Scissor where
  offsetX : Int
  offsetY : Int
  extentW : Nat
  extentH : Nat
deriving DecidableEq

/-- The scissor `InterfacePainter::draw` sets per primitive
(src/render/painter.rs lines 291-300): offset is
`(clip_rect.min * dpi).as_ivec2()`; extent is
`clip_rect.width().round() as u32` by `clip_rect.height().round() as u32`
(the negative-to-zero saturation of `as u32` is `Int.toNat`). -/
def setScissorOf (clip : ClipRect) (dpi : Rat) : Scissor :=
  { offsetX := ratTrunc (clip.minX * dpi)
    offsetY := ratTrunc (clip.minY * dpi)
    extentW := (ratRoundHalfAway (rectWidth clip)).toNat
    extentH := (ratRoundHalfAway (rectHeight clip)).toNat }

/-- Modelled from the spec: the scissor equal to `clip_rect * dpi`, both
corner and extent scaled by the DPI factor. -/
def specScissorOf (clip : ClipRect) (dpi : Rat) : Scissor :=
  { offsetX := ratTrunc (clip.minX * dpi)
    offsetY := ratTrunc (clip.minY * dpi)
    extentW := (ratRoundHalfAway (rectWidth clip * dpi)).toNat
    extentH := (ratRoundHalfAway (rectHeight clip * dpi)).toNat }

/-- `vk::AttachmentLoadOp` values used by the painter. -/
inductive LoadOp
  | CLEAR | LOAD
deriving DecidableEq, Repr

/-- `vk::AttachmentStoreOp` values used by the painter. -/
inductive StoreOp
  | STORE | DONT_CARE
deriving DecidableEq, Repr

/-- The color attachment of the UI pass. -/
structure RenderingAttachment where
  loadOp : LoadOp
  storeOp : StoreOp
deriving DecidableEq

/-- The swapchain color attachment built in `InterfacePainter::draw`
(src/render/painter.rs lines 217-222): load op CLEAR unconditionally,
store op STORE. -/
def uiSwapchainAttachment : RenderingAttachment :=
  { loadOp := .CLEAR, storeOp := .STORE }

/-- Modelled from the spec: the load op the UI pass must use — LOAD when
the path tracer dispatched this frame, CLEAR otherwise. -/
def specUiLoadOp (dispatched : Bool) : LoadOp :=
  if dispatched then .LOAD else .CLEAR

/-! ### Image RAII (src/vulkan/image.rs) -/

/-- Driver calls an `Image` drop can make, in order. -/
inductive DriverAction
  | freeAllocation
  | destroyImage
deriving DecidableEq, Repr

/-- The `Image` wrapper: driver handle plus optional allocation. -/
structure VkImageRec where
  handle : Nat
  allocation : Option Nat
deriving DecidableEq

/-- `Image::new` (src/vulkan/image.rs lines 20-85): allocates, binds and
stores the allocation. -/
def imageNew (handle alloc : Nat) : VkImageRec :=
  { handle := handle, allocation := some alloc }

/-- `Image::from_raw` (src/vulkan/image.rs lines 88-94): wraps a swapchain
handle and stores no allocation. -/
def imageFromRaw (handle : Nat) : VkImageRec :=
  { handle := handle, allocation := none }

/-- `impl Drop for Image` (src/vulkan/image.rs lines 118-128): only when
an allocation is owned, free it and then destroy the image; otherwise do
nothing at all. -/
def imageDropActions (img : VkImageRec) : List DriverAction :=
  match img.allocation with
  | some _ => [.freeAllocation, .destroyImage]
  | none => []

/-! ### Concrete sample data used by witnesses and counterexamples -/

/-- The single-triangle object of spec scenario S2: three vertices
(nine floats) and indices [0, 1, 2]. -/
def triangleObject : GpuObject :=
  { vertices := [0, 0, 0, 1, 0, 0, 0, 1, 0]
    indices := [0, 1, 2]
    transform := [1, 0, 0, 0, 0, 1, 0, 0, 0, 0, 1, 0, 0, 0, 0, 1]
    baseColorR := 4/5, baseColorG := 1/5, baseColorB := 1/10
    emissiveR := 0, emissiveG := 0, emissiveB := 0
    roughness := 1/2, metallic := 0 }

/-- A second object (two triangles over four vertices) for multi-object
witnesses. -/
def quadObject : GpuObject :=
  { vertices := [0, 0, 0, 1, 0, 0, 1, 1, 0, 0, 1, 0]
    indices := [0, 1, 2, 0, 2, 3]
    transform := [1, 0, 0, 0, 0, 1, 0, 0, 0, 0, 1, 0, 0, 0, 0, 1]
    baseColorR := 1, baseColorG := 1, baseColorB := 1
    emissiveR := 0, emissiveG := 0, emissiveB := 0
    roughness := 1, metallic := 0 }

/-! ### Helper lemmas -/

/-- A list longer than two elements starts with three explicit heads. -/
theorem exists_three_heads (l : List Nat) (h : 2 < l.length) :
    ∃ a b c rest, l = a :: b :: c :: rest := by
  match l with
  | a :: b :: c :: rest => exact ⟨a, b, c, rest, rfl⟩
  | [] => simp at h
  | [a] => simp at h
  | [a, b] => simp at h

/-- Skipping four explicit heads shifts an index lookup by four. -/
theorem getElem?_cons_add_four (x1 x2 x3 x4 : Nat) (l : List Nat) (n : Nat) :
    (x1 :: x2 :: x3 :: x4 :: l)[n + 4]? = l[n]? := by
  have e : n + 4 = n + 1 + 1 + 1 + 1 := by omega
  rw [e, List.getElem?_cons_succ, List.getElem?_cons_succ, List.getElem?_cons_succ,
    List.getElem?_cons_succ]

/-- Skipping three explicit heads shifts an index lookup by three. -/
theorem getElem?_cons_add_three (x1 x2 x3 : Nat) (l : List Nat) (n : Nat) :
    (x1 :: x2 :: x3 :: l)[n + 3]? = l[n]? := by
  have e : n + 3 = n + 1 + 1 + 1 := by omega
  rw [e, List.getElem?_cons_succ, List.getElem?_cons_succ, List.getElem?_cons_succ]

/-- Channel k (k < 3) of padded pixel i is channel k of source pixel i. -/
theorem padChunks3_getElem? (p : Nat) (i : Nat) :
    ∀ l : List Nat, 3 * i + 2 < l.length → ∀ k, k < 3 →
      (padChunks3 p l)[4 * i + k]? = l[3 * i + k]? := by
  induction i with
  | zero =>
      intro l h k hk
      obtain ⟨a, b, c, rest, rfl⟩ := exists_three_heads l (by omega)
      interval_cases k <;> simp [padChunks3]
  | succ i ih =>
      intro l h k hk
      obtain ⟨a, b, c, rest, rfl⟩ := exists_three_heads l (by omega)
      have hlen : 3 * i + 2 < rest.length := by simp at h; omega
      have e4 : 4 * (i + 1) + k = 4 * i + k + 4 := by ring
      have e3 : 3 * (i + 1) + k = 3 * i + k + 3 := by ring
      rw [e4, e3]
      simp only [padChunks3]
      rw [getElem?_cons_add_four, getElem?_cons_add_three]
      exact ih rest hlen k hk

/-- Channel 3 of padded pixel i is the padding value. -/
theorem padChunks3_getElem?_pad (p : Nat) (i : Nat) :
    ∀ l : List Nat, 3 * i + 2 < l.length →
      (padChunks3 p l)[4 * i + 3]? = some p := by
  induction i with
  | zero =>
      intro l h
      obtain ⟨a, b, c, rest, rfl⟩ := exists_three_heads l (by omega)
      simp [padChunks3]
  | succ i ih =>
      intro l h
      obtain ⟨a, b, c, rest, rfl⟩ := exists_three_heads l (by omega)
      have hlen : 3 * i + 2 < rest.length := by simp at h; omega
      have e4 : 4 * (i + 1) + 3 = 4 * i + 3 + 4 := by ring
      rw [e4]
      simp only [padChunks3]
      rw [getElem?_cons_add_four]
      exact ih rest hlen

/-- Flattening 16-bit values to little-endian bytes and reading them back
is the identity. -/
theorem leBytesToU16_u16ToLeBytes (l : List Nat) :
    leBytesToU16 (u16ToLeBytes l) = l := by
  induction l with
  | nil => rfl
  | cons a t ih =>
      simp only [u16ToLeBytes, leBytesToU16]
      rw [ih, Nat.mod_add_div]

/-- Reading byte pairs halves the length (a trailing odd byte drops). -/
theorem leBytesToU16_length : ∀ l : List Nat, (leBytesToU16 l).length = l.length / 2
  | [] => by simp [leBytesToU16]
  | [_] => by simp [leBytesToU16]
  | _ :: _ :: rest => by
      simp only [leBytesToU16, List.length_cons]
      rw [leBytesToU16_length rest]
      omega

/-- Lengths of the frame ring are preserved by every step. -/
theorem frames_lengths (s : FramesState) (h : FramesReachable s) :
    s.signaled.length = framesInFlight ∧ s.pending.length = framesInFlight := by
  induction h with
  | init => exact ⟨by simp [framesNew], by simp [framesNew]⟩
  | step s t _ hstep ih =>
      cases hstep with
      | next hn => exact ⟨by simp [framesNext, ih.1], ih.2⟩
      | submit => exact ⟨ih.1, by simp [frameSubmit, ih.2]⟩
      | complete i =>
          by_cases hp : s.pending[i]?.getD false = true <;>
            simp [gpuComplete, List.getD, hp, ih.1, ih.2]

/-! ### Claim theorems -/

/-- C1 counterexample: the claim's 144-byte std140 layout is not the one
the code writes.  `UniformData` (src/render/raytracer.rs lines 51-71) has
four extra f32 fields between the u32 header and the camera position, so
the repr(C) record is 176 bytes with pos at offset 32, inv_view at 48 and
inv_proj at 112 — not 144 bytes with pos at 16, inv_view at 32 and
inv_proj at 96. -/
theorem c1_layout_counterexample :
    reprCSize uniformDataFields = 176 ∧
    ¬ reprCSize uniformDataFields = 144 ∧
    List.lookup "pos" (reprCOffsets uniformDataFields) = some 32 ∧
    ¬ List.lookup "pos" (reprCOffsets uniformDataFields) = some 16 ∧
    List.lookup "inv_view" (reprCOffsets uniformDataFields) = some 48 ∧
    ¬ List.lookup "inv_view" (reprCOffsets uniformDataFields) = some 32 ∧
    List.lookup "inv_proj" (reprCOffsets uniformDataFields) = some 112 ∧
    ¬ List.lookup "inv_proj" (reprCOffsets uniformDataFields) = some 96 := by
  decide

/-- C1 (amended): every per-frame uniform write produces the 176-byte
repr(C) record with u32 seed, samples, bounces and a mode field (written
0, not padding) at offsets 0, 4, 8, 12; f32 focal_length, aperture,
exposure, time at 16, 20, 24, 28; the 16-byte camera-position slot at 32;
inv_view at 48; inv_proj at 112; and samples and bounces are copied from
the world settings. -/
theorem c1_layout_amended (world : World) (seed : Nat) :
    reprCOffsets uniformDataFields =
      [("seed", 0), ("samples", 4), ("bounces", 8), ("mode", 12),
       ("focal_length", 16), ("aperture", 20), ("exposure", 24), ("time", 28),
       ("pos", 32), ("inv_view", 48), ("inv_proj", 112)] ∧
    reprCSize uniformDataFields = 176 ∧
    (updateUniformBuffer world seed).seed = seed ∧
    (updateUniformBuffer world seed).samples = world.settings.samples ∧
    (updateUniformBuffer world seed).bounces = world.settings.bounces ∧
    (updateUniformBuffer world seed).mode = 0 :=
  ⟨by decide, by decide, rfl, rfl, rfl, rfl⟩

/-- C2: on a decoded R16 or R16G16 image, `parse_image` returns the
recoverable unsupported-format error instead of succeeding, even though
the format-translation table in the very same function maps R16 to
R16_UNORM and R16G16 to R16G16_UNORM — the byte-payload match is simply
missing those two formats from its pass-through arm. -/
theorem c2_r16_unsupported_despite_remap :
    parse_image { format := .R16, pixels := [0, 0], width := 1, height := 1 } =
      .error (.UnsupportedFormat .R16) ∧
    parse_image { format := .R16G16, pixels := [0, 0, 0, 0], width := 1, height := 1 } =
      .error (.UnsupportedFormat .R16G16) ∧
    vulkanFormat .R16 = .R16_UNORM ∧
    vulkanFormat .R16G16 = .R16G16_UNORM :=
  ⟨rfl, rfl, rfl, rfl⟩

/-- C3 counterexample: for the single-triangle object (nine floats, three
vertices), the geometry description carries max_vertex 8, not the maximum
vertex index 2 the claim requires for 12-byte-stride vertices. -/
theorem c3_max_vertex_counterexample :
    (mkGeometryDescription 0 0 triangleObject).max_vertex = 8 ∧
    specMaxVertex triangleObject = 2 ∧
    ¬ (mkGeometryDescription 0 0 triangleObject).max_vertex =
        specMaxVertex triangleObject := by
  refine ⟨rfl, rfl, by decide⟩

/-- C3 (amended): the primitive count is the index count divided by 3
rounded up, as claimed, but max_vertex is the flattened float-array
length minus one — three times the vertex count minus one — not the
maximum vertex index. -/
theorem c3_geometry_description (vaddr iaddr : Nat) (o : GpuObject)
    (hv : o.vertices.length % 3 = 0) :
    o.indices.length ≤ 3 * (mkGeometryDescription vaddr iaddr o).primitives ∧
    3 * (mkGeometryDescription vaddr iaddr o).primitives < o.indices.length + 3 ∧
    (mkGeometryDescription vaddr iaddr o).max_vertex =
      3 * (o.vertices.length / 3) - 1 := by
  have h1 : (mkGeometryDescription vaddr iaddr o).primitives =
      (o.indices.length + 2) / 3 := rfl
  have h2 : (mkGeometryDescription vaddr iaddr o).max_vertex =
      o.vertices.length - 1 := rfl
  refine ⟨?_, ?_, ?_⟩
  · rw [h1]; omega
  · rw [h1]; omega
  · rw [h2]; omega

/-- C3 witness: the amended statement at the single-triangle object. -/
theorem c3_geometry_description_witness :
    triangleObject.vertices.length % 3 = 0 ∧
    (triangleObject.indices.length ≤
        3 * (mkGeometryDescription 0 0 triangleObject).primitives ∧
      3 * (mkGeometryDescription 0 0 triangleObject).primitives <
        triangleObject.indices.length + 3 ∧
      (mkGeometryDescription 0 0 triangleObject).max_vertex =
        3 * (triangleObject.vertices.length / 3) - 1) :=
  ⟨by decide, c3_geometry_description 0 0 triangleObject (by decide)⟩

/-- C8: the UI pass color attachment uses store op STORE but its load op
is unconditionally CLEAR; on a frame where the path tracer dispatched
(a scene is loaded, so `run` raytraces), the spec-mandated load op is
LOAD, and the code disagrees — the ray-traced image is overwritten. -/
theorem c8_ui_load_op_is_unconditional_clear :
    uiSwapchainAttachment.storeOp = .STORE ∧
    uiSwapchainAttachment.loadOp = .CLEAR ∧
    (raytracerRun id id id (some (load_objects id id id [triangleObject])) none).2 = true ∧
    specUiLoadOp true = .LOAD ∧
    ¬ uiSwapchainAttachment.loadOp = specUiLoadOp true :=
  ⟨rfl, rfl, rfl, rfl, by decide⟩

/-- C10: dropping an `Image` made by `Image::from_raw` performs no driver
or allocator call at all, while dropping an `Image` made by `Image::new`
first frees the allocation and then destroys the image handle. -/
theorem c10_image_drop_actions (handle alloc : Nat) :
    imageDropActions (imageFromRaw handle) = [] ∧
    imageDropActions (imageNew handle alloc) =
      [.freeAllocation, .destroyImage] :=
  ⟨rfl, rfl⟩

/-- C4: `Frames::next` first advances the wrapping counter modulo 3, then
host-waits and resets that slot's fence, then resets that slot's command
pool, and only then acquires the swapchain image (the event list is in
exactly that order); `Frames::new` creates every slot's in-flight fence
signaled, so the first `next` on each of the three slots is enabled
without any GPU completion; and in every reachable state at most 3 frames
are in flight. -/
theorem c4_frame_pacing (s : FramesState) (hr : FramesReachable s) :
    (framesNext s).2 =
      [FrameEvent.advanceCounter (nextSlot s), FrameEvent.waitFence (nextSlot s),
       FrameEvent.resetFence (nextSlot s), FrameEvent.resetPool (nextSlot s),
       FrameEvent.acquireImage (nextSlot s)] ∧
    (framesNext s).1.counter = (s.counter + 1) % 3 ∧
    framesNew.signaled = [true, true, true] ∧
    nextReady framesNew ∧
    nextReady (frameSubmit (framesNext framesNew).1) ∧
    nextReady (frameSubmit (framesNext (frameSubmit (framesNext framesNew).1)).1) ∧
    inFlight s ≤ 3 := by
  refine ⟨rfl, rfl, by decide, by decide, by decide, by decide, ?_⟩
  have hlen := (frames_lengths s hr).2
  calc inFlight s ≤ s.pending.length := List.count_le_length _ _
    _ = 3 := hlen

/-- C4 witness: the frame-pacing theorem at the initial state. -/
theorem c4_frame_pacing_witness :
    (framesNext framesNew).2 =
      [FrameEvent.advanceCounter (nextSlot framesNew),
       FrameEvent.waitFence (nextSlot framesNew),
       FrameEvent.resetFence (nextSlot framesNew),
       FrameEvent.resetPool (nextSlot framesNew),
       FrameEvent.acquireImage (nextSlot framesNew)] ∧
    (framesNext framesNew).1.counter = (framesNew.counter + 1) % 3 ∧
    framesNew.signaled = [true, true, true] ∧
    nextReady framesNew ∧
    nextReady (frameSubmit (framesNext framesNew).1) ∧
    nextReady (frameSubmit (framesNext (frameSubmit (framesNext framesNew).1)).1) ∧
    inFlight framesNew ≤ 3 :=
  c4_frame_pacing framesNew FramesReachable.init

/-- C5: loading N objects builds N BLASes, N meshes and a TLAS of N
instances; instance i carries custom index i (contiguous 0..N-1), equal
to the material-buffer row the object's material was written at, with
mask 0xFF, SBT record offset 0 and flags 0; the material buffer has 4096
slots. -/
theorem c5_scene_structure (vaddr iaddr baddr : Nat → Nat) (objects : List GpuObject)
    (hN : objects.length ≤ 4096) :
    (load_objects vaddr iaddr baddr objects).blasses.length = objects.length ∧
    (load_objects vaddr iaddr baddr objects).meshes.length = objects.length ∧
    (load_objects vaddr iaddr baddr objects).tlasInstances.length = objects.length ∧
    materialSlots = 4096 ∧
    ∀ i, i < objects.length →
      ((load_objects vaddr iaddr baddr objects).tlasInstances[i]?).map customIndexOf =
        some i ∧
      ((load_objects vaddr iaddr baddr objects).materialWrites[i]?).map Prod.fst =
        some i ∧
      ((load_objects vaddr iaddr baddr objects).tlasInstances[i]?).map maskOf =
        some 255 ∧
      ((load_objects vaddr iaddr baddr objects).tlasInstances[i]?).map sbtOffsetOf =
        some 0 ∧
      ((load_objects vaddr iaddr baddr objects).tlasInstances[i]?).map flagsOf =
        some 0 := by
  refine ⟨?_, ?_, ?_, by decide, ?_⟩
  · simp [load_objects, build_bottom_levels, List.enum_length]
  · simp [load_objects]
  · simp [load_objects, build_top_level, List.enum_length]
  · intro i hi
    have hg : objects[i]? = some objects[i] := List.getElem?_eq_getElem hi
    have he : objects.enum[i]? = some (i, objects[i]) := by
      rw [List.getElem?_enum, hg]; rfl
    have ht : (load_objects vaddr iaddr baddr objects).tlasInstances[i]? =
        some { transform := (mat4TransposeCols objects[i].transform).take 12,
               customIndexAndMask := packed24_8 i 255,
               sbtOffsetAndFlags := packed24_8 0 0,
               blasAddr := baddr i } := by
      simp [load_objects, build_top_level, List.getElem?_map, he]
    have hm : (load_objects vaddr iaddr baddr objects).materialWrites[i]? =
        some (i, materialOf objects[i]) := by
      simp [load_objects, List.getElem?_map, he]
    refine ⟨?_, ?_, ?_, ?_, ?_⟩
    · rw [ht]
      simp only [Option.map_some', Option.some.injEq, customIndexOf, packed24_8]
      omega
    · rw [hm]; rfl
    · rw [ht]
      simp only [Option.map_some', Option.some.injEq, maskOf, packed24_8]
      omega
    · rw [ht]; simp [sbtOffsetOf, packed24_8]
    · rw [ht]; simp [flagsOf, packed24_8]

/-- C5 witness: the scene-structure theorem on a two-object scene. -/
theorem c5_scene_structure_witness :
    (load_objects id id id [triangleObject, quadObject]).blasses.length =
      [triangleObject, quadObject].length ∧
    (load_objects id id id [triangleObject, quadObject]).meshes.length =
      [triangleObject, quadObject].length ∧
    (load_objects id id id [triangleObject, quadObject]).tlasInstances.length =
      [triangleObject, quadObject].length ∧
    materialSlots = 4096 ∧
    ∀ i, i < [triangleObject, quadObject].length →
      ((load_objects id id id [triangleObject, quadObject]).tlasInstances[i]?).map
          customIndexOf = some i ∧
      ((load_objects id id id [triangleObject, quadObject]).materialWrites[i]?).map
          Prod.fst = some i ∧
      ((load_objects id id id [triangleObject, quadObject]).tlasInstances[i]?).map
          maskOf = some 255 ∧
      ((load_objects id id id [triangleObject, quadObject]).tlasInstances[i]?).map
          sbtOffsetOf = some 0 ∧
      ((load_objects id id id [triangleObject, quadObject]).tlasInstances[i]?).map
          flagsOf = some 0 :=
  c5_scene_structure id id id [triangleObject, quadObject] (by decide)

/-- C6: when the loader worker finished with an error, polling logs the
error and returns nothing, the worker handle is consumed, and the
per-frame raytracer entry leaves the current scene untouched — it still
dispatches exactly when a previously loaded scene exists. -/
theorem c6_scene_load_failure (msg : String) (st : LoaderState)
    (current : Option LoadedScene) (va ia ba : Nat → Nat)
    (hfail : st.loadThread = some (true, .err msg)) :
    pollLoader st = (⟨none⟩, none, [.errorLog msg]) ∧
    raytracerRun va ia ba current (pollLoader st).2.1 = (current, current.isSome) := by
  have h1 : st = ⟨some (true, .err msg)⟩ := by
    cases st; simp_all
  subst h1
  exact ⟨rfl, rfl⟩

/-- C6 witness: a cancelled load with a previously loaded scene. -/
theorem c6_scene_load_failure_witness :
    pollLoader ⟨some (true, .err "Scene load cancelled")⟩ =
      (⟨none⟩, none, [.errorLog "Scene load cancelled"]) ∧
    raytracerRun id id id (some (load_objects id id id [triangleObject]))
        (pollLoader ⟨some (true, .err "Scene load cancelled")⟩).2.1 =
      (some (load_objects id id id [triangleObject]),
       (some (load_objects id id id [triangleObject])).isSome) :=
  c6_scene_load_failure "Scene load cancelled" ⟨some (true, .err "Scene load cancelled")⟩
    (some (load_objects id id id [triangleObject])) id id id rfl

/-- C7 counterexample: with clip rectangle (0,0)-(10,10) and DPI 2 the
code sets scissor extent 10 by 10, while the claimed clip_rect-times-dpi
scissor has extent 20 by 20 — the extent is not multiplied by dpi. -/
theorem c7_scissor_counterexample :
    setScissorOf ⟨0, 0, 10, 10⟩ 2 =
      { offsetX := 0, offsetY := 0, extentW := 10, extentH := 10 } ∧
    specScissorOf ⟨0, 0, 10, 10⟩ 2 =
      { offsetX := 0, offsetY := 0, extentW := 20, extentH := 20 } ∧
    ¬ setScissorOf ⟨0, 0, 10, 10⟩ 2 = specScissorOf ⟨0, 0, 10, 10⟩ 2 := by
  have htr : ratTrunc 0 = 0 := by
    unfold ratTrunc
    simp
  have hr10 : ratRoundHalfAway 10 = 10 := by
    rw [ratRoundHalfAway, if_neg (by norm_num)]
    norm_num
  have hr20 : ratRoundHalfAway 20 = 20 := by
    rw [ratRoundHalfAway, if_neg (by norm_num)]
    norm_num
  have h1 : setScissorOf ⟨0, 0, 10, 10⟩ 2 =
      { offsetX := 0, offsetY := 0, extentW := 10, extentH := 10 } := by
    simp only [setScissorOf, rectWidth, rectHeight]
    norm_num [hr10]
    exact ⟨htr, rfl⟩
  have h2 : specScissorOf ⟨0, 0, 10, 10⟩ 2 =
      { offsetX := 0, offsetY := 0, extentW := 20, extentH := 20 } := by
    simp only [specScissorOf, rectWidth, rectHeight]
    norm_num [hr20]
    exact ⟨htr, rfl⟩
  refine ⟨h1, h2, ?_⟩
  rw [h1, h2]
  decide

/-- C7 (amended): the scissor offset is the clip rectangle's min corner
multiplied by dpi (truncated to integers), but the extent is the
unscaled, rounded clip-rect width and height; the code scissor agrees
with the fully dpi-scaled scissor exactly in the offsets, and in full
only at dpi 1. -/
theorem c7_scissor_amended (clip : ClipRect) (dpi : Rat) :
    (setScissorOf clip dpi).offsetX = (specScissorOf clip dpi).offsetX ∧
    (setScissorOf clip dpi).offsetY = (specScissorOf clip dpi).offsetY ∧
    (setScissorOf clip dpi).extentW = (ratRoundHalfAway (rectWidth clip)).toNat ∧
    (setScissorOf clip dpi).extentH = (ratRoundHalfAway (rectHeight clip)).toNat ∧
    setScissorOf clip 1 = specScissorOf clip 1 := by
  refine ⟨rfl, rfl, rfl, rfl, ?_⟩
  simp [setScissorOf, specScissorOf]

/-- C9: the 3-channel padding remap preserves the original channels
1-to-1 and in order.  For an R8G8B8 image whose byte length is a multiple
of 3, output pixel i is the three source bytes of pixel i followed by
alpha 255; for an R16G16B16 image (byte length a multiple of 6, as
decoded images are), output pixel i is the three source 16-bit channels
of pixel i followed by a fourth channel 65535. -/
theorem c9_padding_roundtrip (px qx : List Nat) (wA hA wB hB : Nat)
    (h3 : px.length % 3 = 0) (h6 : qx.length % 6 = 0) :
    (∃ g, parse_image ⟨.R8G8B8, px, wA, hA⟩ = .ok g ∧ g.format = .R8G8B8A8_UNORM ∧
      ∀ i, i < px.length / 3 →
        g.bytes[4 * i]? = px[3 * i]? ∧
        g.bytes[4 * i + 1]? = px[3 * i + 1]? ∧
        g.bytes[4 * i + 2]? = px[3 * i + 2]? ∧
        g.bytes[4 * i + 3]? = some 255) ∧
    (∃ g, parse_image ⟨.R16G16B16, qx, wB, hB⟩ = .ok g ∧ g.format = .R16G16B16A16_UNORM ∧
      ∀ i, i < qx.length / 6 →
        (leBytesToU16 g.bytes)[4 * i]? = (leBytesToU16 qx)[3 * i]? ∧
        (leBytesToU16 g.bytes)[4 * i + 1]? = (leBytesToU16 qx)[3 * i + 1]? ∧
        (leBytesToU16 g.bytes)[4 * i + 2]? = (leBytesToU16 qx)[3 * i + 2]? ∧
        (leBytesToU16 g.bytes)[4 * i + 3]? = some 65535) := by
  constructor
  · refine ⟨⟨padChunks3 255 px, wA, hA, 1, .R8G8B8A8_UNORM⟩, rfl, rfl, ?_⟩
    intro i hi
    have hb : 3 * i + 2 < px.length := by omega
    exact ⟨padChunks3_getElem? 255 i px hb 0 (by omega),
           padChunks3_getElem? 255 i px hb 1 (by omega),
           padChunks3_getElem? 255 i px hb 2 (by omega),
           padChunks3_getElem?_pad 255 i px hb⟩
  · have he : qx.length % 2 = 0 := by omega
    refine ⟨⟨u16ToLeBytes (padChunks3 65535 (leBytesToU16 qx)), wB, hB, 1,
        .R16G16B16A16_UNORM⟩, ?_, rfl, ?_⟩
    · simp [parse_image, parseBytes, he, vulkanFormat]
    · intro i hi
      simp only [leBytesToU16_u16ToLeBytes]
      have hlen : 3 * i + 2 < (leBytesToU16 qx).length := by
        rw [leBytesToU16_length]; omega
      exact ⟨padChunks3_getElem? 65535 i _ hlen 0 (by omega),
             padChunks3_getElem? 65535 i _ hlen 1 (by omega),
             padChunks3_getElem? 65535 i _ hlen 2 (by omega),
             padChunks3_getElem?_pad 65535 i _ hlen⟩

/-- C9 witness: the round-trip theorem on a one-pixel R8G8B8 image and a
one-pixel little-endian R16G16B16 image. -/
theorem c9_padding_roundtrip_witness :
    (∃ g, parse_image ⟨.R8G8B8, [1, 2, 3], 1, 1⟩ = .ok g ∧ g.format = .R8G8B8A8_UNORM ∧
      ∀ i, i < [1, 2, 3].length / 3 →
        g.bytes[4 * i]? = [1, 2, 3][3 * i]? ∧
        g.bytes[4 * i + 1]? = [1, 2, 3][3 * i + 1]? ∧
        g.bytes[4 * i + 2]? = [1, 2, 3][3 * i + 2]? ∧
        g.bytes[4 * i + 3]? = some 255) ∧
    (∃ g, parse_image ⟨.R16G16B16, [1, 0, 2, 0, 3, 0], 1, 1⟩ = .ok g ∧
      g.format = .R16G16B16A16_UNORM ∧
      ∀ i, i < [1, 0, 2, 0, 3, 0].length / 6 →
        (leBytesToU16 g.bytes)[4 * i]? = (leBytesToU16 [1, 0, 2, 0, 3, 0])[3 * i]? ∧
        (leBytesToU16 g.bytes)[4 * i + 1]? = (leBytesToU16 [1, 0, 2, 0, 3, 0])[3 * i + 1]? ∧
        (leBytesToU16 g.bytes)[4 * i + 2]? = (leBytesToU16 [1, 0, 2, 0, 3, 0])[3 * i + 2]? ∧
        (leBytesToU16 g.bytes)[4 * i + 3]? = some 65535) :=
  c9_padding_roundtrip [1, 2, 3] [1, 0, 2, 0, 3, 0] 1 1 1 1 (by decide) (by decide)

end Nea
